import Mathlib

/-!
# Verification of the policy evaluation engine and decision composer

Shallow embedding of the `checkpoint_project` firewall service:

* `src/models.py` — `Protocol`, `Action`, `Operator`, `ConnectionRequest`,
  `PolicyCondition`, `Policy`, `ConnectionResponse`, `ConnectionDetail`;
* `src/services/policy_engine.py` — `PolicyEngine._get_field_value`,
  `PolicyEngine._evaluate_condition`, `PolicyEngine._matches_policy`,
  `PolicyEngine.evaluate`;
* `src/main.py` (`submit_connection`, lines 37–78) — decision composition
  (default block, the anomaly escalation rule) and the response/detail values;
* `src/services/storage.py` — `PolicyStore` over an insertion-ordered map.

Python-level conventions of the embedding:

* Machine floats (the anomaly score) are modelled as exact rationals `ℚ`;
  on the comparisons performed by the code (strict comparison with the
  literal `0.8`, and the sample scores `0.80`, `0.81`) the rational model and
  IEEE doubles agree.
* A Python value that can flow through `_get_field_value` /
  `_evaluate_condition` is a `PyValue`.  Attribute lookup (`getattr`) is
  modelled on the data attributes of the model types; method attributes of
  built-in types (e.g. `str.upper`) are not part of the model.
* A raised `TypeError` (Python's unordered cross-type comparison) is the
  `Except.error ()` outcome; `AttributeError` inside `_get_field_value` is
  already absorbed by the source into `None`, i.e. `Option.none` here.
-/

deriving instance DecidableEq for Except

namespace Checkpoint

/-- `models.Protocol` (`src/models.py` lines 10–13). -/
inductive Protocol where
  | TCP
  | UDP
deriving DecidableEq, Repr

/-- `models.Action` (`src/models.py` lines 16–20). -/
inductive Action where
  | allow
  | alert
  | block
deriving DecidableEq, Repr

/-- `models.Operator` (`src/models.py` lines 23–30): `==`, `!=`, `>`, `<`, `>=`, `<=`. -/
inductive Operator where
  | eq
  | ne
  | gt
  | lt
  | ge
  | le
deriving DecidableEq, Repr

/-- A `datetime.datetime` value (microseconds are not used by the service's
data and are omitted). -/
structure Datetime where
  year : Nat
  month : Nat
  day : Nat
  hour : Nat
  minute : Nat
  second : Nat
deriving DecidableEq, Repr

/-- `models.ConnectionRequest` (`src/models.py` lines 33–39). -/
structure ConnectionRequest where
  source_ip : String
  destination_ip : String
  destination_port : Int
  protocol : Protocol
  timestamp : Datetime
deriving DecidableEq, Repr

/-- `models.PolicyCondition` (`src/models.py` lines 63–67). -/
structure PolicyCondition where
  field : String
  operator : Operator
  value : String
deriving DecidableEq, Repr

/-- `models.Policy` (`src/models.py` lines 77–81). -/
structure Policy where
  policy_id : String
  conditions : List PolicyCondition
  action : Action
deriving DecidableEq, Repr

/-- The `.value` string of a `Protocol` member (a `str`-mixin enum). -/
def protocolValue : Protocol → String
  | .TCP => "TCP"
  | .UDP => "UDP"

/-- The `.value` string of an `Action` member. -/
def actionValue : Action → String
  | .allow => "allow"
  | .alert => "alert"
  | .block => "block"

/-- A Python runtime value reachable inside `PolicyEngine._get_field_value`
and `PolicyEngine._evaluate_condition`: the connection object itself, a
string, an integer, a `Protocol` enum member, or a `datetime`. -/
inductive PyValue where
  | conn (c : ConnectionRequest)
  | str (s : String)
  | int (n : Int)
  | protocol (p : Protocol)
  | datetime (d : Datetime)
deriving DecidableEq, Repr

/-! ## Python string / comparison primitives used by the engine -/

/-- Decimal digits of a natural number, most significant first (`fuel`-bounded
structural recursion; `fuel ≥ number of digits` always holds for `fuel = n + 1`). -/
def natDigits : Nat → Nat → List Char
  | 0, _ => []
  | fuel + 1, n =>
    if n < 10 then [Char.ofNat (48 + n)]
    else natDigits fuel (n / 10) ++ [Char.ofNat (48 + n % 10)]

/-- `str()` of a Python non-negative integer. -/
def natToStr (n : Nat) : String := String.mk (natDigits (n + 1) n)

/-- `str()` of a Python integer. -/
def intToStr (i : Int) : String :=
  if i < 0 then "-" ++ natToStr i.natAbs else natToStr i.natAbs

/-- Zero-padded two-digit decimal (used by `datetime.__str__`). -/
def pad2 (n : Nat) : String := if n < 10 then "0" ++ natToStr n else natToStr n

/-- Zero-padded four-digit year (years in this service are ≥ 1000; smaller
years would be padded further by Python, which the model does not need). -/
def pad4 (n : Nat) : String := natToStr n

/-- `str()` of a `datetime` with zero microseconds: `YYYY-MM-DD HH:MM:SS`. -/
def datetimeStr (d : Datetime) : String :=
  pad4 d.year ++ "-" ++ pad2 d.month ++ "-" ++ pad2 d.day ++ " " ++
    pad2 d.hour ++ ":" ++ pad2 d.minute ++ ":" ++ pad2 d.second

/-- Code-point comparison of characters (Python `str` ordering is by code point). -/
def charCompare (a b : Char) : Ordering := compare a.toNat b.toNat

/-- Lexicographic code-point comparison of strings, as Python orders `str`. -/
def lexCompare : List Char → List Char → Ordering
  | [], [] => .eq
  | [], _ :: _ => .lt
  | _ :: _, [] => .gt
  | a :: as, b :: bs =>
    match charCompare a b with
    | .eq => lexCompare as bs
    | o => o

/-- Chronological comparison of `datetime` values (lexicographic on the
calendar fields). -/
def dtCompare (a b : Datetime) : Ordering :=
  ((((compare a.year b.year).then (compare a.month b.month)).then
    (compare a.day b.day)).then
      ((compare a.hour b.hour).then (compare a.minute b.minute))).then
    (compare a.second b.second)

/-- Integer comparison. -/
def intCompare (a b : Int) : Ordering :=
  if a < b then .lt else if b < a then .gt else .eq

/-- Python `int(string)`: optional surrounding spaces, optional sign, at
least one decimal digit.  (Python additionally accepts underscore
separators, other unicode whitespace and non-ASCII digits; no literal in
this development uses them.) -/
def pyToInt (s : String) : Option Int :=
  let cs := (((s.data.dropWhile (· = ' ')).reverse.dropWhile (· = ' ')).reverse)
  let core : List Char → Option Int := fun ds =>
    if ds ≠ [] ∧ ds.all Char.isDigit then
      some (ds.foldl (fun n c => 10 * n + ((c.toNat : Int) - 48)) 0)
    else none
  match cs with
  | '+' :: ds => core ds
  | '-' :: ds => (core ds).map (- ·)
  | ds => core ds

/-- Python `str()` of a runtime value.

The `conn` case (a pydantic model) can never be an actual operand of
`_evaluate_condition`: every field path has at least one segment and
`getattr` never returns the root object, so the branch is unreachable; its
value is pydantic's `repr`-style rendering truncated to the class name. -/
def pyStr : PyValue → String
  | .conn _ => "ConnectionRequest"
  | .str s => s
  | .int n => intToStr n
  | .protocol p => "Protocol." ++ protocolValue p
  | .datetime d => datetimeStr d

/-- Python rich comparison (`<`, `>`, `<=`, `>=`) between two runtime
values: `some` of the ordering where Python defines one, `none` where
Python raises `TypeError`.  A `Protocol` member is a `str` subclass and
compares with strings as its value string; `int` vs `str`, `datetime` vs
`str`, etc. are unordered and raise. -/
def pyCompare : PyValue → PyValue → Option Ordering
  | .int a, .int b => some (intCompare a b)
  | .str a, .str b => some (lexCompare a.data b.data)
  | .str a, .protocol b => some (lexCompare a.data (protocolValue b).data)
  | .protocol a, .str b => some (lexCompare (protocolValue a).data b.data)
  | .protocol a, .protocol b =>
      some (lexCompare (protocolValue a).data (protocolValue b).data)
  | .datetime a, .datetime b => some (dtCompare a b)
  | _, _ => none

/-! ## `PolicyEngine` (`src/services/policy_engine.py`) -/

/-- Python `getattr(value, attr)` on the data attributes of the model types:
the five declared fields of `ConnectionRequest`, the `value`/`name`
attributes of an enum member, and the calendar attributes of a `datetime`.
`none` is an `AttributeError` (method attributes of built-in types are
outside the model).  For `Protocol`, `name` and `value` coincide. -/
def pyGetattr : PyValue → String → Option PyValue
  | .conn c, "source_ip" => some (.str c.source_ip)
  | .conn c, "destination_ip" => some (.str c.destination_ip)
  | .conn c, "destination_port" => some (.int c.destination_port)
  | .conn c, "protocol" => some (.protocol c.protocol)
  | .conn c, "timestamp" => some (.datetime c.timestamp)
  | .protocol p, "value" => some (.str (protocolValue p))
  | .protocol p, "name" => some (.str (protocolValue p))
  | .datetime d, "year" => some (.int d.year)
  | .datetime d, "month" => some (.int d.month)
  | .datetime d, "day" => some (.int d.day)
  | .datetime d, "hour" => some (.int d.hour)
  | .datetime d, "minute" => some (.int d.minute)
  | .datetime d, "second" => some (.int d.second)
  | _, _ => none

/-- Python `field.split(".")` on the character list, accumulator-style:
`"a.b" ↦ ["a", "b"]`, `"" ↦ [""]`, `"a..b" ↦ ["a", "", "b"]`. -/
def splitDotsAux : List Char → List Char → List (List Char)
  | [], acc => [acc.reverse]
  | ch :: rest, acc =>
    if ch = '.' then acc.reverse :: splitDotsAux rest []
    else splitDotsAux rest (ch :: acc)

/-- Python `field.split(".")`. -/
def splitDots (s : String) : List String :=
  (splitDotsAux s.data []).map String.mk

/-- Python `"." in field`. -/
def hasDot (s : String) : Bool := s.data.contains '.'

/-- The successive-`getattr` loop of `_get_field_value`
(`src/services/policy_engine.py` lines 23–25): `none` as soon as a segment
raises `AttributeError`. -/
def resolvePath : PyValue → List String → Option PyValue
  | v, [] => some v
  | v, a :: rest =>
    match pyGetattr v a with
    | none => none
    | some v2 => resolvePath v2 rest

/-- Python `hasattr(value, "value")` over the model's runtime values: only
enum members carry a `value` attribute. -/
def hasValueAttr : PyValue → Bool
  | .protocol _ => true
  | _ => false

/-- `PolicyEngine._get_field_value` (`src/services/policy_engine.py` lines
16–32): split the path on `.`, resolve attribute by attribute, and unwrap
`value.value` when the final value has a `value` attribute and the path has
no dot; `AttributeError` anywhere yields `None`. -/
def getFieldValue (c : ConnectionRequest) (field : String) : Option PyValue :=
  match resolvePath (.conn c) (splitDots field) with
  | none => none
  | some v =>
    if hasValueAttr v && !(hasDot field) then pyGetattr v "value"
    else some v

/-- The expected-value coercion block of `_evaluate_condition`
(`src/services/policy_engine.py` lines 43–50): for the field
`destination_port` the literal is parsed as an `int` (`none` = the
`ValueError` branch, which the caller turns into `False`); every other
field keeps the literal string. -/
def coerceExpected (field value : String) : Option PyValue :=
  if field = "destination_port" then (pyToInt value).map PyValue.int
  else some (.str value)

/-- `PolicyEngine._evaluate_condition` (`src/services/policy_engine.py`
lines 34–64).  `.ok b` is a normal boolean return; `.error ()` is an
uncaught `TypeError` from an unordered cross-type comparison in the
`>`/`<`/`>=`/`<=` branches (the only uncaught exception the body can
raise). -/
def evaluateCondition (c : ConnectionRequest) (cond : PolicyCondition) :
    Except Unit Bool :=
  match getFieldValue c cond.field with
  | none => .ok false
  | some actual =>
    match coerceExpected cond.field cond.value with
    | none => .ok false
    | some expected =>
      match cond.operator with
      | .eq => .ok (pyStr actual == pyStr expected)
      | .ne => .ok (!(pyStr actual == pyStr expected))
      | .gt =>
        match pyCompare actual expected with
        | some o => .ok (o == .gt)
        | none => .error ()
      | .lt =>
        match pyCompare actual expected with
        | some o => .ok (o == .lt)
        | none => .error ()
      | .ge =>
        match pyCompare actual expected with
        | some o => .ok (!(o == .lt))
        | none => .error ()
      | .le =>
        match pyCompare actual expected with
        | some o => .ok (!(o == .gt))
        | none => .error ()

/-- The short-circuiting `all(...)` generator of `_matches_policy`:
stops at the first `False` condition; an exception raised by a condition
propagates. -/
def evalConditions (c : ConnectionRequest) : List PolicyCondition → Except Unit Bool
  | [] => .ok true
  | cond :: rest =>
    match evaluateCondition c cond with
    | .error e => .error e
    | .ok false => .ok false
    | .ok true => evalConditions c rest

/-- `PolicyEngine._matches_policy` (`src/services/policy_engine.py` lines
66–71). -/
def matchesPolicy (c : ConnectionRequest) (p : Policy) : Except Unit Bool :=
  evalConditions c p.conditions

/-- `PolicyEngine.evaluate` (`src/services/policy_engine.py` lines 73–81),
parameterised by the ordered list `policy_store.get_all()` hands over:
first matching policy, else `none`; an exception from `_matches_policy`
propagates. -/
def evaluate (policies : List Policy) (c : ConnectionRequest) :
    Except Unit (Option Policy) :=
  match policies with
  | [] => .ok none
  | p :: rest =>
    match matchesPolicy c p with
    | .error e => .error e
    | .ok true => .ok (some p)
    | .ok false => evaluate rest c

/-! ## Decision composition (`src/main.py`, `submit_connection`) -/

/-- Python `round` to an integer: round half to even (banker's rounding),
over the exact rational model of the float. -/
def pyRoundHalfEven (x : ℚ) : ℤ :=
  let f := ⌊x⌋
  if x - f < 1 / 2 then f
  else if 1 / 2 < x - f then f + 1
  else if f % 2 = 0 then f else f + 1

/-- Python `round(x, 2)`. -/
def roundTo2 (x : ℚ) : ℚ := (pyRoundHalfEven (x * 100) : ℚ) / 100

/-- `models.ConnectionResponse` (`src/models.py` lines 42–47). -/
structure ConnectionResponse where
  connection_id : String
  decision : Action
  anomaly_score : ℚ
  matched_policy : Option String
deriving DecidableEq, Repr

/-- `models.ConnectionDetail` (`src/models.py` lines 50–60). -/
structure ConnectionDetail where
  connection_id : String
  source_ip : String
  destination_ip : String
  destination_port : Int
  protocol : Protocol
  timestamp : Datetime
  decision : Action
  anomaly_score : ℚ
  matched_policy : Option String
deriving DecidableEq, Repr

/-- Lines 46–57 of `src/main.py`: base action and policy id from the match
(block / no id when nothing matched), then the single escalation rule
`anomaly_score > 0.8 and action == Action.ALLOW → ALERT`. -/
def composeDecision (matched : Option Policy) (anomaly_score : ℚ) :
    Action × Option String :=
  let base : Action × Option String :=
    match matched with
    | some p => (p.action, some p.policy_id)
    | none => (.block, none)
  if anomaly_score > 8 / 10 ∧ base.1 = .allow then (.alert, base.2) else base

/-- Lines 46–78 of `src/main.py` after `policy_engine.evaluate` returned:
the decision, the stored `ConnectionDetail` (raw `anomaly_score`, line 68)
and the returned `ConnectionResponse` (`round(anomaly_score, 2)`, line 76).
`connection_id` stands for the generated UUID. -/
def finishConnection (request : ConnectionRequest) (connection_id : String)
    (matched : Option Policy) (anomaly_score : ℚ) :
    ConnectionDetail × ConnectionResponse :=
  let d := composeDecision matched anomaly_score
  ({ connection_id := connection_id
     source_ip := request.source_ip
     destination_ip := request.destination_ip
     destination_port := request.destination_port
     protocol := request.protocol
     timestamp := request.timestamp
     decision := d.1
     anomaly_score := anomaly_score
     matched_policy := d.2 },
   { connection_id := connection_id
     decision := d.1
     anomaly_score := roundTo2 anomaly_score
     matched_policy := d.2 })

/-- `submit_connection` (`src/main.py` lines 31–78), with the anomaly score
and the generated UUID as parameters: evaluate against the stored policies,
then compose, store and respond.  An exception escaping
`policy_engine.evaluate` aborts the request. -/
def submitConnection (policies : List Policy) (request : ConnectionRequest)
    (connection_id : String) (anomaly_score : ℚ) :
    Except Unit (ConnectionDetail × ConnectionResponse) :=
  match evaluate policies request with
  | .error e => .error e
  | .ok matched =>
    .ok (finishConnection request connection_id matched anomaly_score)

/-! ## `PolicyStore` (`src/services/storage.py`) -/

/-- The state of `PolicyStore._policies`: an `OrderedDict[str, Policy]` as
its ordered key–value pairs (keys are unique by dict construction). -/
abbrev PolicyStoreState := List (String × Policy)

/-- `OrderedDict.__setitem__`: an existing key keeps its position and gets
the new value; a new key is appended at the end. -/
def odSet : PolicyStoreState → String → Policy → PolicyStoreState
  | [], k, v => [(k, v)]
  | (k2, v2) :: rest, k, v =>
    if k2 = k then (k, v) :: rest else (k2, v2) :: odSet rest k v

/-- `PolicyStore.add` (`src/services/storage.py` lines 18–20):
`self._policies[policy.policy_id] = policy`. -/
def PolicyStore.add (s : PolicyStoreState) (p : Policy) : PolicyStoreState :=
  odSet s p.policy_id p

/-- `PolicyStore.get` (`src/services/storage.py` lines 22–24). -/
def PolicyStore.get (s : PolicyStoreState) (policy_id : String) : Option Policy :=
  (s.find? (fun e => e.1 == policy_id)).map Prod.snd

/-- `PolicyStore.get_all` (`src/services/storage.py` lines 26–28):
the values in insertion order. -/
def PolicyStore.get_all (s : PolicyStoreState) : List Policy :=
  s.map Prod.snd

/-! ## Spec-side definition used for the refinement comparison -/

/-- Spec-side first-match semantics, written from the spec's words (§4.1,
§8): "the lowest-index policy in P whose full condition set holds; if no
such policy exists, none" — to be compared with the engine's `evaluate`. -/
def specFirstMatch (policies : List Policy) (c : ConnectionRequest) :
    Option Policy :=
  policies.find? (fun p => matchesPolicy c p == Except.ok true)

/-! ## Shared concrete sample values -/

/-- A sample connection (the one used by the repository's own test suite:
TCP from 192.168.1.100 to 10.0.0.1:443 on 2024-01-15 10:30:00). -/
def sampleConn : ConnectionRequest :=
  { source_ip := "192.168.1.100"
    destination_ip := "10.0.0.1"
    destination_port := 443
    protocol := .TCP
    timestamp := ⟨2024, 1, 15, 10, 30, 0⟩ }

/-- A two-policy store state: `web` (allow, first) then `db` (block). -/
def sampleStore : PolicyStoreState :=
  [("web", ⟨"web", [], .allow⟩), ("db", ⟨"db", [], .block⟩)]

/-- A policy whose single condition applies an ordering operator to the
`timestamp` field. -/
def tsOrderPolicy : Policy :=
  { policy_id := "ts-after"
    conditions := [⟨"timestamp", .gt, "2024-01-01"⟩]
    action := .allow }

/-! ## Helper lemmas: field extraction on the five declared fields -/

lemma getFieldValue_source_ip (c : ConnectionRequest) :
    getFieldValue c "source_ip" = some (.str c.source_ip) := rfl

lemma getFieldValue_destination_ip (c : ConnectionRequest) :
    getFieldValue c "destination_ip" = some (.str c.destination_ip) := rfl

lemma getFieldValue_destination_port (c : ConnectionRequest) :
    getFieldValue c "destination_port" = some (.int c.destination_port) := rfl

lemma getFieldValue_protocol (c : ConnectionRequest) :
    getFieldValue c "protocol" = some (.str (protocolValue c.protocol)) := by
  cases c with
  | mk si di dp pr ts => cases pr <;> rfl

lemma getFieldValue_timestamp (c : ConnectionRequest) :
    getFieldValue c "timestamp" = some (.datetime c.timestamp) := rfl

lemma coerceExpected_ne_port (field v : String) (h : ¬ field = "destination_port") :
    coerceExpected field v = some (.str v) := by
  simp [coerceExpected, h]

lemma intCompare_gt_iff (a b : Int) : (intCompare a b == .gt) = decide (b < a) := by
  unfold intCompare
  rcases lt_trichotomy a b with h | h | h
  · simp [h, not_lt_of_gt h]
    rfl
  · simp [h]
    rfl
  · simp [h, not_lt_of_gt h]
    rfl

lemma intCompare_lt_iff (a b : Int) : (intCompare a b == .lt) = decide (a < b) := by
  unfold intCompare
  rcases lt_trichotomy a b with h | h | h
  · simp [h]
    rfl
  · simp [h]
    rfl
  · simp [h, not_lt_of_gt h]
    rfl

/-! ## Claim theorems -/

/-- **C2.** For every matched policy and every anomaly score, the final
action is the policy's action except that it is escalated to `alert`
exactly when the base action is `allow` and the score is strictly greater
than `0.8`; a score of `0.80` leaves `allow` unchanged and `0.81`
escalates; base actions `block` and `alert` are never altered by any
score. -/
theorem composeDecision_escalation_rule (p : Policy) (score : ℚ) :
    composeDecision (some p) score
      = ((if p.action = Action.allow ∧ 8 / 10 < score then Action.alert
          else p.action), some p.policy_id)
    ∧ composeDecision (some ⟨"web", [], .allow⟩) (80 / 100) = (.allow, some "web")
    ∧ composeDecision (some ⟨"web", [], .allow⟩) (81 / 100) = (.alert, some "web")
    ∧ (∀ s : ℚ, composeDecision (some ⟨"b", [], .block⟩) s = (.block, some "b"))
    ∧ (∀ s : ℚ, composeDecision (some ⟨"a", [], .alert⟩) s = (.alert, some "a")) := by
  refine ⟨?_, ?_, ?_, ?_, ?_⟩
  · by_cases h : 8 / 10 < score ∧ p.action = Action.allow
    · simp [composeDecision, h, h.1, h.2]
    · rw [and_comm] at h
      simp [composeDecision, and_comm, h]
  · have h : ¬ ((8 : ℚ) / 10 < 80 / 100) := by norm_num
    simp [composeDecision, h]
  · have h : (8 : ℚ) / 10 < 81 / 100 := by norm_num
    simp [composeDecision, h]
  · intro s; simp [composeDecision]
  · intro s; simp [composeDecision]

/-- **C3.** When the engine matches no policy, the composed decision is the
fail-closed default — action `block`, no matched policy id — for every
anomaly score (in particular also above `0.8`), and the stored detail and
the response of `submit_connection` carry that default. -/
theorem composeDecision_default_block (score : ℚ) :
    composeDecision none score = (Action.block, none)
    ∧ (∀ (policies : List Policy) (request : ConnectionRequest) (cid : String),
        evaluate policies request = .ok none →
          submitConnection policies request cid score
            = .ok (finishConnection request cid none score)
          ∧ (finishConnection request cid none score).2.decision = Action.block
          ∧ (finishConnection request cid none score).2.matched_policy = none) := by
  have hbase : composeDecision none score = (Action.block, none) := by
    simp [composeDecision]
  refine ⟨hbase, ?_⟩
  intro policies request cid hnone
  refine ⟨?_, ?_, ?_⟩
  · simp [submitConnection, hnone]
  · simp [finishConnection, hbase]
  · simp [finishConnection, hbase]

/-- **C1, counterexample.** On the one-policy list whose policy applies an
ordering operator to `timestamp`, no policy's full condition set holds
(the spec-side first match is `none`), yet `evaluate` does not return
`none` — the condition comparison raises `TypeError` and the exception
propagates out of `evaluate`. -/
theorem evaluate_raises_instead_of_none :
    evaluate [tsOrderPolicy] sampleConn = .error ()
    ∧ specFirstMatch [tsOrderPolicy] sampleConn = none
    ∧ evaluate [tsOrderPolicy] sampleConn
        ≠ .ok (specFirstMatch [tsOrderPolicy] sampleConn) := by decide

/-- **C1 (amended).** Provided no condition evaluation of the list raises
(ordering conditions on `timestamp` do raise, see C4), `evaluate` returns
exactly the spec-side first match: the lowest-index policy whose full
condition set holds, and `none` when the list is empty or no policy
matches — earlier position wins, and a policy with an empty condition
list matches every connection. -/
theorem evaluate_first_match (policies : List Policy) (c : ConnectionRequest)
    (h : ∀ p ∈ policies, matchesPolicy c p ≠ .error ()) :
    evaluate policies c = .ok (specFirstMatch policies c)
    ∧ (∀ p : Policy, p.conditions = [] → matchesPolicy c p = .ok true) := by
  constructor
  · induction policies with
    | nil => simp [evaluate, specFirstMatch]
    | cons p rest ih =>
      have hp := h p (List.mem_cons_self p rest)
      rcases hm : matchesPolicy c p with e | b
      · cases e
        exact absurd hm hp
      · cases b
        · have ihr := ih (fun q hq => h q (List.mem_cons_of_mem p hq))
          simp [evaluate, hm, specFirstMatch, List.find?_cons] at ihr ⊢
          exact ihr
        · simp [evaluate, hm, specFirstMatch, List.find?_cons]
  · intro p hp
    simp [matchesPolicy, hp, evalConditions]

/-- Witness for C1 (amended): two policies that both match the sample
connection; the earlier (empty-condition) one is returned. -/
theorem evaluate_first_match_witness :
    (∀ p ∈ ([⟨"p-any", [], .allow⟩,
             ⟨"p-tcp", [⟨"protocol", .eq, "TCP"⟩], .block⟩] : List Policy),
        matchesPolicy sampleConn p ≠ .error ())
    ∧ (evaluate [⟨"p-any", [], .allow⟩,
          ⟨"p-tcp", [⟨"protocol", .eq, "TCP"⟩], .block⟩] sampleConn
        = .ok (specFirstMatch [⟨"p-any", [], .allow⟩,
            ⟨"p-tcp", [⟨"protocol", .eq, "TCP"⟩], .block⟩] sampleConn)
       ∧ (∀ p : Policy, p.conditions = [] →
            matchesPolicy sampleConn p = .ok true)) :=
  ⟨by decide, evaluate_first_match _ _ (by decide)⟩

/-- Witness for C3: the empty policy store and a score of `0.99` (above
the escalation threshold) still yield the block default. -/
theorem composeDecision_default_block_witness :
    composeDecision none (99 / 100) = (Action.block, none)
    ∧ (evaluate [] sampleConn = .ok none)
    ∧ (submitConnection [] sampleConn "cid-0" (99 / 100)
        = .ok (finishConnection sampleConn "cid-0" none (99 / 100))
      ∧ (finishConnection sampleConn "cid-0" none (99 / 100)).2.decision
          = Action.block
      ∧ (finishConnection sampleConn "cid-0" none (99 / 100)).2.matched_policy
          = none) :=
  ⟨(composeDecision_default_block (99 / 100)).1, by decide,
   (composeDecision_default_block (99 / 100)).2 [] sampleConn "cid-0" (by decide)⟩

/-- **C4, counterexample.** The ordering operators are not total: a
greater-than condition on `timestamp` compares the connection's
`datetime` against the condition's string literal, for which Python
defines no ordering, so `_evaluate_condition` raises `TypeError` instead
of degrading to false. -/
theorem ordering_on_timestamp_raises :
    evaluateCondition sampleConn ⟨"timestamp", .gt, "2024-01-01"⟩
      = .error () := by decide

/-- **C4 (amended).** Condition evaluation never raises for the equality
operators (`==`, `!=`), and never raises on the fields that resolve to a
string or to the coerced port integer (`source_ip`, `destination_ip`,
`destination_port`, `protocol`) — unresolvable paths and
numeric-coercion failures degrade to false there.  But on `timestamp`
the four ordering operators raise `TypeError` (datetime vs. string),
rather than never raising. -/
theorem condition_eval_totality (c : ConnectionRequest) (cond : PolicyCondition) :
    (cond.operator = .eq ∨ cond.operator = .ne →
        ∃ b, evaluateCondition c cond = .ok b)
    ∧ (cond.field ∈ (["source_ip", "destination_ip",
          "destination_port", "protocol"] : List String) →
        ∃ b, evaluateCondition c cond = .ok b)
    ∧ (cond.field = "timestamp" →
        (cond.operator = .gt ∨ cond.operator = .lt ∨
         cond.operator = .ge ∨ cond.operator = .le) →
        evaluateCondition c cond = .error ()) := by
  obtain ⟨f, op, v⟩ := cond
  refine ⟨?_, ?_, ?_⟩
  · rintro (rfl | rfl) <;>
    · unfold evaluateCondition
      rcases getFieldValue c f with _ | a
      · exact ⟨false, rfl⟩
      · rcases coerceExpected f v with _ | e
        · exact ⟨false, rfl⟩
        · exact ⟨_, rfl⟩
  · intro hf
    simp only [List.mem_cons, List.not_mem_nil, or_false] at hf
    rcases hf with rfl | rfl | rfl | rfl
    · cases op <;>
        · simp [evaluateCondition, getFieldValue_source_ip,
            coerceExpected_ne_port "source_ip" v (by decide), pyCompare]
          try exact em _
    · cases op <;>
        · simp [evaluateCondition, getFieldValue_destination_ip,
            coerceExpected_ne_port "destination_ip" v (by decide), pyCompare]
          try exact em _
    · rcases hv : pyToInt v with _ | n
      · cases op <;>
          simp [evaluateCondition, getFieldValue_destination_port,
            coerceExpected, hv]
      · cases op <;>
          · simp [evaluateCondition, getFieldValue_destination_port,
              coerceExpected, hv, pyCompare]
            try exact em _
    · cases op <;>
        · simp [evaluateCondition, getFieldValue_protocol,
            coerceExpected_ne_port "protocol" v (by decide), pyCompare]
          try exact em _
  · rintro rfl hop
    have hcoerce : coerceExpected "timestamp" v = some (.str v) :=
      coerceExpected_ne_port "timestamp" v (by decide)
    rcases hop with rfl | rfl | rfl | rfl <;>
      simp [evaluateCondition, getFieldValue_timestamp, hcoerce, pyCompare]

/-- Witness for C4 (amended): instantiated at a not-equals condition on an
unknown field, an ordering condition on `protocol`, and an ordering
condition on `timestamp`. -/
theorem condition_eval_totality_witness :
    (∃ b, evaluateCondition sampleConn ⟨"nonexistent", .ne, "x"⟩ = .ok b)
    ∧ (∃ b, evaluateCondition sampleConn ⟨"protocol", .le, "ZZZ"⟩ = .ok b)
    ∧ evaluateCondition sampleConn ⟨"timestamp", .ge, "2024"⟩ = .error () :=
  ⟨(condition_eval_totality sampleConn ⟨"nonexistent", .ne, "x"⟩).1 (Or.inr rfl),
   (condition_eval_totality sampleConn ⟨"protocol", .le, "ZZZ"⟩).2.1 (by decide),
   (condition_eval_totality sampleConn ⟨"timestamp", .ge, "2024"⟩).2.2 rfl
     (by decide)⟩

/-- **C5.** Fail-closed condition evaluation: a condition whose field path
does not resolve evaluates false for every operator (including
not-equals), and a condition on `destination_port` whose literal does not
parse as an integer evaluates false for every operator. -/
theorem condition_fail_closed (c : ConnectionRequest) (cond : PolicyCondition) :
    (getFieldValue c cond.field = none → evaluateCondition c cond = .ok false)
    ∧ (∀ (op : Operator) (v : String), pyToInt v = none →
        evaluateCondition c ⟨"destination_port", op, v⟩ = .ok false) := by
  constructor
  · intro h
    simp [evaluateCondition, h]
  · intro op v h
    simp [evaluateCondition, getFieldValue_destination_port, coerceExpected, h]

/-- Witness for C5: the unknown field `nonexistent` under not-equals, and
the non-numeric literal `"abc"` against `destination_port`. -/
theorem condition_fail_closed_witness :
    (getFieldValue sampleConn "nonexistent" = none
      ∧ evaluateCondition sampleConn ⟨"nonexistent", .ne, "443"⟩ = .ok false)
    ∧ (pyToInt "abc" = none
      ∧ evaluateCondition sampleConn ⟨"destination_port", .ne, "abc"⟩ = .ok false) :=
  ⟨⟨by decide,
    (condition_fail_closed sampleConn ⟨"nonexistent", .ne, "443"⟩).1 (by decide)⟩,
   ⟨by decide,
    (condition_fail_closed sampleConn ⟨"destination_port", .ne, "abc"⟩).2
      .ne "abc" (by decide)⟩⟩

lemma coerceExpected_port (v : String) :
    coerceExpected "destination_port" v = (pyToInt v).map PyValue.int := by
  simp [coerceExpected]

/-- **C6.** The equals / not-equals operators compare the string
representations of the actual and the (possibly coerced) expected value;
in particular an integer port `443` equals the literal `"443"`, so on
every connection whose `destination_port` is `443` an equals condition
with literal `"443"` is true and a not-equals condition with that literal
is false. -/
theorem eq_ne_compare_as_strings (c : ConnectionRequest) (cond : PolicyCondition)
    (a e : PyValue) (ha : getFieldValue c cond.field = some a)
    (he : coerceExpected cond.field cond.value = some e) :
    (cond.operator = .eq →
        evaluateCondition c cond = .ok (pyStr a == pyStr e))
    ∧ (cond.operator = .ne →
        evaluateCondition c cond = .ok (!(pyStr a == pyStr e)))
    ∧ (c.destination_port = 443 →
        evaluateCondition c ⟨"destination_port", .eq, "443"⟩ = .ok true
        ∧ evaluateCondition c ⟨"destination_port", .ne, "443"⟩ = .ok false) := by
  have hint : pyToInt "443" = some 443 := by decide
  refine ⟨?_, ?_, ?_⟩
  · intro hop
    simp [evaluateCondition, ha, he, hop]
  · intro hop
    simp [evaluateCondition, ha, he, hop]
  · intro hport
    constructor <;>
      · simp [evaluateCondition, getFieldValue_destination_port,
          coerceExpected_port, hint, hport]
        try decide

/-- Witness for C6: the sample connection (port 443) against the string
field `source_ip` for the general clauses and against the port for the
boundary clauses. -/
theorem eq_ne_compare_as_strings_witness :
    (evaluateCondition sampleConn ⟨"source_ip", .eq, "192.168.1.100"⟩
        = .ok (pyStr (.str "192.168.1.100") == pyStr (.str "192.168.1.100")))
    ∧ (evaluateCondition sampleConn ⟨"source_ip", .ne, "192.168.1.100"⟩
        = .ok (!(pyStr (.str "192.168.1.100") == pyStr (.str "192.168.1.100"))))
    ∧ (evaluateCondition sampleConn ⟨"destination_port", .eq, "443"⟩ = .ok true
        ∧ evaluateCondition sampleConn ⟨"destination_port", .ne, "443"⟩ = .ok false) :=
  ⟨(eq_ne_compare_as_strings sampleConn ⟨"source_ip", .eq, "192.168.1.100"⟩
      (.str "192.168.1.100") (.str "192.168.1.100") (by decide) (by decide)).1 rfl,
   (eq_ne_compare_as_strings sampleConn ⟨"source_ip", .ne, "192.168.1.100"⟩
      (.str "192.168.1.100") (.str "192.168.1.100") (by decide) (by decide)).2.1 rfl,
   (eq_ne_compare_as_strings sampleConn ⟨"source_ip", .ne, "192.168.1.100"⟩
      (.str "192.168.1.100") (.str "192.168.1.100") (by decide) (by decide)).2.2
     (by decide)⟩

lemma intCompare_ge_iff (a b : Int) :
    (!(intCompare a b == .lt)) = decide (b ≤ a) := by
  rw [intCompare_lt_iff]
  rcases le_or_lt b a with h | h
  · simp [h, not_lt_of_ge h]
  · simp [h, not_le_of_gt h]

lemma intCompare_le_iff (a b : Int) :
    (!(intCompare a b == .gt)) = decide (a ≤ b) := by
  rw [intCompare_gt_iff]
  rcases le_or_lt a b with h | h
  · simp [h, not_lt_of_ge h]
  · simp [h, not_le_of_gt h]

/-- **C7, counterexample.** A less-than condition on `timestamp` does not
compare chronologically: the expected value stays a string, no `datetime`
is ever parsed from it, and the comparison raises `TypeError` instead of
producing a boolean. -/
theorem ordering_timestamp_not_chronological :
    evaluateCondition sampleConn ⟨"timestamp", .lt, "2025-06-01 00:00:00"⟩
      = .error () := by decide

/-- **C7 (amended).** The four ordering operators never stringify their
operands: on `destination_port` they compare the connection's port and
the integer-coerced literal by numeric order, and on the string-valued
fields (`source_ip`, `destination_ip`, the unwrapped `protocol`) they
compare lexicographically by code point — e.g. port `9 > "10"` is false
numerically even though `"9" > "10"` lexicographically.  On `timestamp`,
however, the literal is never converted to a date-time and the comparison
raises `TypeError` instead of being chronological. -/
theorem ordering_native_types (c : ConnectionRequest) (v : String) :
    (∀ n : Int, pyToInt v = some n →
        evaluateCondition c ⟨"destination_port", .gt, v⟩
          = .ok (decide (n < c.destination_port))
        ∧ evaluateCondition c ⟨"destination_port", .lt, v⟩
          = .ok (decide (c.destination_port < n))
        ∧ evaluateCondition c ⟨"destination_port", .ge, v⟩
          = .ok (decide (n ≤ c.destination_port))
        ∧ evaluateCondition c ⟨"destination_port", .le, v⟩
          = .ok (decide (c.destination_port ≤ n)))
    ∧ (evaluateCondition c ⟨"source_ip", .gt, v⟩
        = .ok (lexCompare c.source_ip.data v.data == .gt))
    ∧ (evaluateCondition c ⟨"protocol", .lt, v⟩
        = .ok (lexCompare (protocolValue c.protocol).data v.data == .lt))
    ∧ (c.destination_port = 9 →
        evaluateCondition c ⟨"destination_port", .gt, "10"⟩ = .ok false
        ∧ lexCompare "9".data "10".data = .gt)
    ∧ (evaluateCondition c ⟨"timestamp", .gt, v⟩ = .error ()
        ∧ evaluateCondition c ⟨"timestamp", .le, v⟩ = .error ()) := by
  refine ⟨?_, ?_, ?_, ?_, ?_⟩
  · intro n hn
    refine ⟨?_, ?_, ?_, ?_⟩ <;>
      · simp [evaluateCondition, getFieldValue_destination_port,
          coerceExpected_port, hn, pyCompare, intCompare_gt_iff,
          intCompare_lt_iff, intCompare_ge_iff, intCompare_le_iff]
        try simp [← decide_not, not_le]
  · simp [evaluateCondition, getFieldValue_source_ip,
      coerceExpected_ne_port "source_ip" v (by decide), pyCompare]
  · simp [evaluateCondition, getFieldValue_protocol,
      coerceExpected_ne_port "protocol" v (by decide), pyCompare]
  · intro h9
    have h10 : pyToInt "10" = some 10 := by decide
    constructor
    · simp [evaluateCondition, getFieldValue_destination_port,
        coerceExpected_port, h10, pyCompare, intCompare_gt_iff, h9]
    · decide
  · have hc : coerceExpected "timestamp" v = some (.str v) :=
      coerceExpected_ne_port "timestamp" v (by decide)
    constructor <;> simp [evaluateCondition, getFieldValue_timestamp, hc, pyCompare]

/-- Witness for C7 (amended): numeric comparison of port 443 against the
literal `"100"` (true numerically, false as strings), and the
nine-vs-ten contrast on a port-9 connection. -/
theorem ordering_native_types_witness :
    (evaluateCondition sampleConn ⟨"destination_port", .gt, "100"⟩
        = .ok (decide ((100 : Int) < sampleConn.destination_port))
      ∧ evaluateCondition sampleConn ⟨"destination_port", .lt, "100"⟩
        = .ok (decide (sampleConn.destination_port < (100 : Int)))
      ∧ evaluateCondition sampleConn ⟨"destination_port", .ge, "100"⟩
        = .ok (decide ((100 : Int) ≤ sampleConn.destination_port))
      ∧ evaluateCondition sampleConn ⟨"destination_port", .le, "100"⟩
        = .ok (decide (sampleConn.destination_port ≤ (100 : Int))))
    ∧ (evaluateCondition
          ⟨"10.0.0.7", "10.0.0.8", 9, .UDP, ⟨2024, 2, 1, 0, 0, 0⟩⟩
          ⟨"destination_port", .gt, "10"⟩ = .ok false
        ∧ lexCompare "9".data "10".data = .gt) :=
  ⟨(ordering_native_types sampleConn "100").1 100 (by decide),
   (ordering_native_types
     ⟨"10.0.0.7", "10.0.0.8", 9, .UDP, ⟨2024, 2, 1, 0, 0, 0⟩⟩ "10").2.2.2.1
       (by decide)⟩

/-- **C8.** Single-segment extraction of the enum field `protocol` yields
the enumeration's underlying string (`"TCP"`/`"UDP"`), while extraction
along any dotted (multi-segment) path returns the raw resolved value with
no enum unwrapping — e.g. the dotted path `protocol.value` reaches the
same string only because it names the `value` attribute explicitly. -/
theorem enum_unwrap_single_segment (c : ConnectionRequest) (field : String) :
    getFieldValue c "protocol" = some (.str (protocolValue c.protocol))
    ∧ getFieldValue c "protocol.value" = some (.str (protocolValue c.protocol))
    ∧ (hasDot field = true →
        getFieldValue c field = resolvePath (.conn c) (splitDots field)) := by
  refine ⟨getFieldValue_protocol c, ?_, ?_⟩
  · cases c with
    | mk si di dp pr ts => cases pr <;> rfl
  · intro h
    unfold getFieldValue
    rcases resolvePath (.conn c) (splitDots field) with _ | v
    · rfl
    · simp [h]

/-- Witness for C8: the dotted path `timestamp.year` on the sample
connection resolves without unwrapping. -/
theorem enum_unwrap_single_segment_witness :
    getFieldValue sampleConn "protocol" = some (.str (protocolValue sampleConn.protocol))
    ∧ getFieldValue sampleConn "protocol.value"
        = some (.str (protocolValue sampleConn.protocol))
    ∧ getFieldValue sampleConn "timestamp.year"
        = resolvePath (.conn sampleConn) (splitDots "timestamp.year") :=
  ⟨(enum_unwrap_single_segment sampleConn "timestamp.year").1,
   (enum_unwrap_single_segment sampleConn "timestamp.year").2.1,
   (enum_unwrap_single_segment sampleConn "timestamp.year").2.2 (by decide)⟩

/-- **C9, counterexample.** The anomaly score is *not* returned to the
caller unmodified: for the score `0.123` the `ConnectionResponse` built by
`submit_connection` carries `round(0.123, 2) = 0.12 ≠ 0.123`. -/
theorem response_score_rounded :
    (finishConnection sampleConn "cid-1" none (123 / 1000)).2.anomaly_score
      = 12 / 100
    ∧ ((12 : ℚ) / 100 ≠ 123 / 1000) := by
  constructor
  · show roundTo2 (123 / 1000) = 12 / 100
    unfold roundTo2 pyRoundHalfEven
    rw [show ((123 : ℚ) / 1000 * 100) = 123 / 10 by norm_num,
      show ⌊(123 : ℚ) / 10⌋ = 12 from by norm_num]
    norm_num
  · norm_num

/-- **C9 (amended).** The anomaly score reaches the stored
`ConnectionDetail` unmodified, but the `ConnectionResponse` returned to
the caller carries `round(score, 2)` — the score rounded to two decimal
places — alongside the final action and the matched policy identifier,
which are delivered exactly as composed. -/
theorem score_passthrough_and_rounding (request : ConnectionRequest)
    (cid : String) (matched : Option Policy) (score : ℚ) :
    (finishConnection request cid matched score).1.anomaly_score = score
    ∧ (finishConnection request cid matched score).2.anomaly_score
        = roundTo2 score
    ∧ (finishConnection request cid matched score).2.decision
        = (composeDecision matched score).1
    ∧ (finishConnection request cid matched score).2.matched_policy
        = (composeDecision matched score).2
    ∧ (finishConnection request cid matched score).1.decision
        = (composeDecision matched score).1 :=
  ⟨rfl, rfl, rfl, rfl, rfl⟩

lemma odSet_eq_set (l : PolicyStoreState) (k : String) (v : Policy)
    (h : k ∈ l.map Prod.fst) :
    odSet l k v = l.set (l.findIdx (fun e => e.1 == k)) (k, v) := by
  induction l with
  | nil => simp at h
  | cons a rest ih =>
    obtain ⟨a1, a2⟩ := a
    by_cases hk : a1 = k
    · subst hk
      simp [odSet, List.findIdx_cons]
    · have h' : k ∈ rest.map Prod.fst := by
        simp only [List.map_cons, List.mem_cons] at h
        rcases h with h | h
        · exact absurd h.symm hk
        · exact h
      have hbeq : (a1 == k) = false := by
        simp [hk]
      simp [odSet, hk, List.findIdx_cons, hbeq, ih h']

lemma odSet_map_fst (l : PolicyStoreState) (k : String) (v : Policy)
    (h : k ∈ l.map Prod.fst) :
    (odSet l k v).map Prod.fst = l.map Prod.fst := by
  induction l with
  | nil => simp at h
  | cons a rest ih =>
    obtain ⟨a1, a2⟩ := a
    by_cases hk : a1 = k
    · subst hk
      simp [odSet]
    · have h' : k ∈ rest.map Prod.fst := by
        simp only [List.map_cons, List.mem_cons] at h
        rcases h with h | h
        · exact absurd h.symm hk
        · exact h
      simp [odSet, hk, ih h']

/-- **C10.** Adding a policy whose `policy_id` already exists replaces the
stored policy in place: the store keeps its length (no duplicate entry),
its key sequence is unchanged, and `get_all` returns the same
insertion-order list with only the entry at the existing key's original
position replaced — so the policy's priority in the engine's first-match
scan is unchanged rather than moved to the end.  (`add` is a total
function: it never raises.) -/
theorem store_add_existing_replaces_in_place (s : PolicyStoreState) (p : Policy)
    (h : p.policy_id ∈ s.map Prod.fst) :
    PolicyStore.add s p
      = s.set (s.findIdx (fun e => e.1 == p.policy_id)) (p.policy_id, p)
    ∧ (PolicyStore.add s p).length = s.length
    ∧ (PolicyStore.add s p).map Prod.fst = s.map Prod.fst
    ∧ PolicyStore.get_all (PolicyStore.add s p)
      = (PolicyStore.get_all s).set
          (s.findIdx (fun e => e.1 == p.policy_id)) p := by
  have h1 := odSet_eq_set s p.policy_id p h
  refine ⟨h1, ?_, odSet_map_fst s p.policy_id p h, ?_⟩
  · rw [PolicyStore.add, h1, List.length_set]
  · rw [PolicyStore.get_all, PolicyStore.add, h1, List.map_set]
    rfl

/-- Witness for C10: replacing the first of two stored policies keeps it
in first position with the new action. -/
theorem store_add_existing_replaces_in_place_witness :
    ("web" ∈ sampleStore.map Prod.fst)
    ∧ PolicyStore.add sampleStore ⟨"web", [], .block⟩
      = sampleStore.set (sampleStore.findIdx (fun e => e.1 == "web"))
          ("web", ⟨"web", [], .block⟩) :=
  ⟨by decide,
   (store_add_existing_replaces_in_place sampleStore
     ⟨"web", [], .block⟩ (by decide)).1⟩

end Checkpoint

